import Mathlib

/-!
Shallow embedding of the EDI trading-signal core: the circuit breaker and
operation queue (`src/shared/error_handling.py`), the resilient Redis
publisher/client (`src/shared/redis_client.py`), and the signal aggregator
(`src/signal/aggregator.py`).  Machine floats are modelled as exact
rationals, wall-clock instants as rationals, and the fallible transport as
explicit boolean outcomes.  Stateful Python methods become state-passing
functions; the unbounded `while` loop of `replay_buffer` becomes a
fuel-indexed loop returning `Option` (`none` = fuel exhausted).
-/

namespace EDI

/-- States of `CircuitState` in `error_handling.py` (CLOSED/OPEN/HALF_OPEN). -/
inductive CircuitState where
  | closed
  | opened
  | halfOpen
deriving DecidableEq, Repr

/-- The mutable fields and configuration of `CircuitBreaker`
(`error_handling.py`, lines 39-189).  Timestamps are rationals. -/
structure CircuitBreaker where
  failureThreshold : Nat
  recoveryTimeout : ℚ
  halfOpenMaxCalls : Nat
  state : CircuitState
  failureCount : Nat
  lastFailureTime : Option ℚ
  halfOpenCalls : Nat
deriving DecidableEq, Repr

/-- Model of `CircuitBreaker.__init__`: fresh breaker in CLOSED with zero counters. -/
def CircuitBreaker.init (threshold : Nat) (timeout : ℚ) (halfOpenMax : Nat) :
    CircuitBreaker :=
  { failureThreshold := threshold
    recoveryTimeout := timeout
    halfOpenMaxCalls := halfOpenMax
    state := .closed
    failureCount := 0
    lastFailureTime := none
    halfOpenCalls := 0 }

/-- Model of `CircuitBreaker._should_attempt_reset`: true when no failure recorded or
`now - lastFailureTime >= recoveryTimeout`. -/
def CircuitBreaker.shouldAttemptReset (cb : CircuitBreaker) (now : ℚ) : Bool :=
  match cb.lastFailureTime with
  | none => true
  | some t => decide (now - t ≥ cb.recoveryTimeout)

/-- Model of `CircuitBreaker._on_success`: HALF_OPEN closes; failure counter and last
failure time are cleared unconditionally. -/
def CircuitBreaker.onSuccess (cb : CircuitBreaker) : CircuitBreaker :=
  { cb with
    state := if cb.state = .halfOpen then .closed else cb.state
    failureCount := 0
    lastFailureTime := none }

/-- Model of `CircuitBreaker._on_failure`: increments the failure count, stamps the
failure time; HALF_OPEN reopens, otherwise the breaker opens once the count
reaches the threshold. -/
def CircuitBreaker.onFailure (cb : CircuitBreaker) (now : ℚ) : CircuitBreaker :=
  let fc := cb.failureCount + 1
  { cb with
    failureCount := fc
    lastFailureTime := some now
    state :=
      if cb.state = .halfOpen then .opened
      else if fc ≥ cb.failureThreshold then .opened
      else cb.state }

/-- Result of one `CircuitBreaker.call`: what the caller observes
(`rejected` = `CircuitBreakerOpenError` raised before the operation runs),
whether the wrapped operation was invoked, and the updated breaker. -/
inductive CallOutcome where
  | rejected
  | succeeded
  | failed
deriving DecidableEq, Repr

structure CallResult where
  outcome : CallOutcome
  invoked : Bool
  breaker : CircuitBreaker
deriving DecidableEq, Repr

/-- The half-open admission check plus execution of the wrapped operation
(`call`, lines 117-132).  `opOk` is the outcome of the wrapped operation
(`false` = it raises an expected exception). -/
def CircuitBreaker.callFrom (cb : CircuitBreaker) (now : ℚ) (opOk : Bool) :
    CallResult :=
  if cb.state = .halfOpen then
    if cb.halfOpenCalls ≥ cb.halfOpenMaxCalls then
      ⟨.rejected, false, cb⟩
    else
      let cb1 := { cb with halfOpenCalls := cb.halfOpenCalls + 1 }
      if opOk then ⟨.succeeded, true, cb1.onSuccess⟩
      else ⟨.failed, true, cb1.onFailure now⟩
  else
    if opOk then ⟨.succeeded, true, cb.onSuccess⟩
    else ⟨.failed, true, cb.onFailure now⟩

/-- Model of `CircuitBreaker.call` (lines 87-132): an OPEN breaker either enters
HALF_OPEN (when the recovery timeout elapsed) or rejects without invoking
the operation; then the half-open limit is checked and the operation runs. -/
def CircuitBreaker.call (cb : CircuitBreaker) (now : ℚ) (opOk : Bool) :
    CallResult :=
  if cb.state = .opened then
    if cb.shouldAttemptReset now then
      CircuitBreaker.callFrom { cb with state := .halfOpen, halfOpenCalls := 0 } now opOk
    else
      ⟨.rejected, false, cb⟩
  else
    cb.callFrom now opOk

/-- A run of `k` consecutive failing calls, all at time 0. -/
def CircuitBreaker.afterFails (cb : CircuitBreaker) : Nat → CircuitBreaker
  | 0 => cb
  | k + 1 => ((cb.afterFails k).call 0 false).breaker

end EDI

namespace EDI

/-- Model of `TechnicalSignalType` enum from `models.py`. -/
inductive TechnicalSignalType where
  | overbought
  | oversold
  | bullishCross
  | bearishCross
  | upperBreach
  | lowerBreach
  | neutral
deriving DecidableEq, Repr

/-- Model of `TechnicalSignals` dataclass. -/
structure TechnicalSignals where
  rsiSignal : TechnicalSignalType
  macdSignal : TechnicalSignalType
  bbSignal : TechnicalSignalType
deriving DecidableEq, Repr

/-- Model of `RegimeType` enum from `models.py`. -/
inductive RegimeType where
  | trendingUp
  | trendingDown
  | ranging
  | volatile
  | calm
deriving DecidableEq, Repr

/-- Model of `MarketRegime` dataclass. -/
structure MarketRegime where
  regimeType : RegimeType
  confidence : ℚ
  volatility : ℚ
  trendStrength : ℚ
  timestamp : ℚ
deriving DecidableEq, Repr

/-- Model of `Event` dataclass, restricted to the fields the aggregator core reads. -/
structure Event where
  eventType : String
  severity : ℚ
  timestamp : ℚ
deriving DecidableEq, Repr

/-- Model of `AggregatedData` dataclass. -/
structure AggregatedData where
  sentimentScore : ℚ
  technicalSignals : TechnicalSignals
  regime : MarketRegime
  events : List Event
  timestamp : ℚ
deriving DecidableEq, Repr

/-- Model of `CompositeMarketScore` dataclass; the `weights` dict has the three fixed
keys sentiment/technical/regime, modelled as three fields. -/
structure CompositeMarketScore where
  score : ℚ
  sentimentComponent : ℚ
  technicalComponent : ℚ
  regimeComponent : ℚ
  weightSentiment : ℚ
  weightTechnical : ℚ
  weightRegime : ℚ
  timestamp : ℚ
deriving DecidableEq, Repr

/-- Model of `TradingSignalType` enum. -/
inductive TradingSignalType where
  | buy
  | sell
  | hold
deriving DecidableEq, Repr

/-- Model of `TradingSignal` dataclass (the explanation strings carry no data the
core computes with and are not modelled). -/
structure TradingSignal where
  signalType : TradingSignalType
  cms : CompositeMarketScore
  confidence : ℚ
  timestamp : ℚ
deriving DecidableEq, Repr

/-- Configuration held by `SignalAggregator` after `__init__`. -/
structure SignalAggregator where
  weightSentiment : ℚ
  weightTechnical : ℚ
  weightRegime : ℚ
  buyThreshold : ℚ
  sellThreshold : ℚ
deriving DecidableEq, Repr

/-- The weight-normalization step of `SignalAggregator.__init__`
(lines 60-66): weights are divided by their total when the total is more
than 0.001 away from 1. -/
def mkSignalAggregator (ws wt wr bt st : ℚ) : SignalAggregator :=
  let total := ws + wt + wr
  if |total - 1| > 1 / 1000 then
    ⟨ws / total, wt / total, wr / total, bt, st⟩
  else
    ⟨ws, wt, wr, bt, st⟩

/-- Model of `SignalAggregator._normalize_technical_signals` (lines 302-349): each of
the three sub-signals contributes +1, -1 or 0 and increments the divisor only
when it matches one of the branches checked for that sub-signal. -/
def normalizeTechnicalSignals (s : TechnicalSignals) : ℚ :=
  let acc : ℚ × Nat := (0, 0)
  let acc :=
    match s.rsiSignal with
    | .oversold => (acc.1 + 1, acc.2 + 1)
    | .overbought => (acc.1 - 1, acc.2 + 1)
    | .neutral => (acc.1, acc.2 + 1)
    | _ => acc
  let acc :=
    match s.macdSignal with
    | .bullishCross => (acc.1 + 1, acc.2 + 1)
    | .bearishCross => (acc.1 - 1, acc.2 + 1)
    | .neutral => (acc.1, acc.2 + 1)
    | _ => acc
  let acc :=
    match s.bbSignal with
    | .lowerBreach => (acc.1 + 1, acc.2 + 1)
    | .upperBreach => (acc.1 - 1, acc.2 + 1)
    | .neutral => (acc.1, acc.2 + 1)
    | _ => acc
  if acc.2 > 0 then acc.1 / acc.2 else 0

/-- Model of `SignalAggregator._normalize_regime` (lines 351-373): fixed base score
per regime type, weighted by confidence. -/
def normalizeRegime (r : MarketRegime) : ℚ :=
  let base : ℚ :=
    match r.regimeType with
    | .trendingUp => 1
    | .trendingDown => -1
    | .ranging => 0
    | .volatile => -3 / 10
    | .calm => 1 / 5
  base * r.confidence

/-- Model of `SignalAggregator.compute_cms` (lines 260-300): weighted sum of the
three normalized components scaled by 100 and clamped to [-100, 100]; the
result record is stamped with the construction time `now`. -/
def computeCms (agg : SignalAggregator) (data : AggregatedData) (now : ℚ) :
    CompositeMarketScore :=
  let sentimentNormalized := data.sentimentScore
  let technicalNormalized := normalizeTechnicalSignals data.technicalSignals
  let regimeNormalized := normalizeRegime data.regime
  let cmsScore :=
    (agg.weightSentiment * sentimentNormalized +
     agg.weightTechnical * technicalNormalized +
     agg.weightRegime * regimeNormalized) * 100
  let cmsScore := max (-100) (min 100 cmsScore)
  { score := cmsScore
    sentimentComponent := sentimentNormalized * 100
    technicalComponent := technicalNormalized * 100
    regimeComponent := regimeNormalized * 100
    weightSentiment := agg.weightSentiment
    weightTechnical := agg.weightTechnical
    weightRegime := agg.weightRegime
    timestamp := now }

/-- Model of `SignalAggregator._compute_confidence` (lines 410-427). -/
def computeConfidence (cms : CompositeMarketScore) (regime : MarketRegime) : ℚ :=
  let cmsStrength := |cms.score| / 100
  let confidence := (cmsStrength + regime.confidence) / 2
  min 1 (max 0 confidence)

/-- Model of `SignalAggregator.generate_signal` (lines 375-408): computes the CMS,
thresholds it into BUY/SELL/HOLD, and stamps the signal with the current
time `now`. -/
def generateSignal (agg : SignalAggregator) (data : AggregatedData) (now : ℚ) :
    TradingSignal :=
  let cms := computeCms agg data now
  let signalType : TradingSignalType :=
    if cms.score > agg.buyThreshold then .buy
    else if cms.score < agg.sellThreshold then .sell
    else .hold
  { signalType := signalType
    cms := cms
    confidence := computeConfidence cms data.regime
    timestamp := now }

/-- Model of `BufferedMessage`: one `(channel, data, timestamp)` triple held in
`RedisPublisher._buffer`. -/
structure BufferedMessage where
  channel : String
  payload : String
  enqueuedAt : ℚ
deriving DecidableEq, Repr

/-- Model of `collections.deque(maxlen=cap).append`: append at the tail, dropping
from the head whenever the length would exceed `cap`. -/
def dequeAppend (buf : List BufferedMessage) (m : BufferedMessage) (cap : Nat) :
    List BufferedMessage :=
  let grown := buf ++ [m]
  if grown.length > cap then grown.drop (grown.length - cap) else grown

/-- The mutable fields of `RedisPublisher` (`redis_client.py`, lines 41-119):
the bounded deque buffer (created with `maxlen=1000`) and the buffering
flag. -/
structure PublisherState where
  buffer : List BufferedMessage
  bufferEnabled : Bool
  maxlen : Nat
deriving DecidableEq, Repr

/-- Model of `RedisPublisher.__init__`: empty deque with `maxlen=1000`, buffering
disabled. -/
def PublisherState.init : PublisherState := ⟨[], false, 1000⟩

/-- Model of `RedisPublisher.publish` (lines 50-75): one send attempt whose outcome
is `sendOk`; on failure the triple `(channel, data, now)` is appended to the
deque when and only when buffering is enabled, and `false` is returned. -/
def PublisherState.publish (st : PublisherState) (channel payload : String)
    (sendOk : Bool) (now : ℚ) : Bool × PublisherState :=
  if sendOk then (true, st)
  else if st.bufferEnabled then
    (false, { st with buffer := dequeAppend st.buffer ⟨channel, payload, now⟩ st.maxlen })
  else (false, st)

/-- Model of `RedisPublisher.enable_buffering`. -/
def PublisherState.enableBuffering (st : PublisherState) : PublisherState :=
  { st with bufferEnabled := true }

/-- Model of `RedisPublisher.disable_buffering`. -/
def PublisherState.disableBuffering (st : PublisherState) : PublisherState :=
  { st with bufferEnabled := false }

/-- State of the `replay_buffer` drain loop (lines 100-112): the live
publisher state, the local `failed_messages` list, the `replayed` counter,
the running index into the send-outcome oracle, and a ghost log of the
messages whose re-publish was attempted, in order. -/
structure ReplayState where
  pub : PublisherState
  failed : List BufferedMessage
  replayed : Nat
  attempts : Nat
  attempted : List BufferedMessage
deriving DecidableEq, Repr

/-- One iteration of the `while self._buffer` drain loop: pop the head,
skip it when its age exceeds 300 seconds, otherwise re-publish it through
`PublisherState.publish` (which, when buffering is enabled, re-appends a
fresh-timestamped copy to the live buffer on failure) and record it in
`failed_messages` when the re-publish failed.  `sendOk` gives the outcome
of each successive send attempt. -/
def replayStep (now : ℚ) (sendOk : Nat → Bool) (s : ReplayState) : ReplayState :=
  match s.pub.buffer with
  | [] => s
  | m :: rest =>
    let pub1 := { s.pub with buffer := rest }
    if now - m.enqueuedAt > 300 then
      { s with pub := pub1 }
    else
      let r := pub1.publish m.channel m.payload (sendOk s.attempts) now
      if r.1 then
        { pub := r.2
          failed := s.failed
          replayed := s.replayed + 1
          attempts := s.attempts + 1
          attempted := s.attempted ++ [m] }
      else
        { pub := r.2
          failed := s.failed ++ [m]
          replayed := s.replayed
          attempts := s.attempts + 1
          attempted := s.attempted ++ [m] }

/-- The drain loop itself, indexed by fuel; `none` means the loop was still
running when the fuel ran out (the Python loop has no bound of its own). -/
def replayLoop (now : ℚ) (sendOk : Nat → Bool) : Nat → ReplayState → Option ReplayState
  | 0, s => if s.pub.buffer = [] then some s else none
  | fuel + 1, s =>
    if s.pub.buffer = [] then some s
    else replayLoop now sendOk fuel (replayStep now sendOk s)

/-- Model of `RedisPublisher.replay_buffer` (lines 87-119): early return 0 on an
empty buffer; otherwise drain the buffer, then re-append each entry of
`failed_messages` to the deque (same `maxlen` policy) and return the count
of successfully replayed messages together with the final publisher state. -/
def replayBuffer (now : ℚ) (sendOk : Nat → Bool) (fuel : Nat)
    (st : PublisherState) : Option (Nat × PublisherState) :=
  if st.buffer = [] then some (0, st)
  else
    match replayLoop now sendOk fuel ⟨st, [], 0, 0, []⟩ with
    | none => none
    | some s =>
      some (s.replayed,
        { s.pub with
          buffer := s.failed.foldl (fun b m => dequeAppend b m s.pub.maxlen) s.pub.buffer })

/-- The claim that `replay_buffer` returns at all from a given publisher
state under a given send-outcome oracle: some amount of fuel suffices. -/
def ReplayTerminates (now : ℚ) (sendOk : Nat → Bool) (st : PublisherState) : Prop :=
  ∃ fuel r, replayBuffer now sendOk fuel st = some r

/-- Observable outcome of a replay pass: the re-publish attempts in order,
the entries that failed, and the count of successful replays. -/
structure ReplayOutcome where
  attempted : List BufferedMessage
  failed : List BufferedMessage
  replayed : Nat
deriving DecidableEq, Repr

/-- Spec-level description of replay, following the spec's words: dequeue
in FIFO order, skip entries older than the staleness threshold, re-publish
each remaining entry and collect the ones that still fail.  Used to compare
the drain loop of the code against the spec for the refinement claim. -/
def replaySpec (now : ℚ) (sendOk : Nat → Bool) :
    List BufferedMessage → Nat → ReplayOutcome
  | [], _ => ⟨[], [], 0⟩
  | m :: rest, i =>
    if now - m.enqueuedAt > 300 then replaySpec now sendOk rest i
    else
      let o := replaySpec now sendOk rest (i + 1)
      if sendOk i then ⟨m :: o.attempted, o.failed, o.replayed + 1⟩
      else ⟨m :: o.attempted, m :: o.failed, o.replayed⟩

/-- The reconnection bookkeeping of `RedisClient` (lines 237-239): the
attempt counter and its bound, plus the outcome `pingOk` of pinging the
freshly rebuilt connection. -/
structure ReconnectCtx where
  reconnectAttempts : Nat
  maxReconnectAttempts : Nat
  pingOk : Bool
deriving DecidableEq, Repr

/-- What a run of `RedisClient.reconnect` (lines 265-321) produced:
the boolean result, the updated attempt counter, the publisher state, and
the number of `time.sleep` calls performed. -/
structure ReconnectResult where
  ok : Bool
  ctx : ReconnectCtx
  st : PublisherState
  sleeps : Nat
deriving DecidableEq, Repr

/-- Model of `RedisClient.reconnect`: gives up without sleeping once the attempt cap
is reached; otherwise sleeps the backoff, rebuilds the connection and pings
it; on ping success it resets counters, replays the buffer and disables
buffering; on ping failure it increments the attempt counter.  `none`
propagates a non-terminating replay. -/
def reconnect (ctx : ReconnectCtx) (st : PublisherState) (now : ℚ)
    (sendOk : Nat → Bool) (fuel : Nat) : Option ReconnectResult :=
  if ctx.reconnectAttempts ≥ ctx.maxReconnectAttempts then
    some ⟨false, ctx, st, 0⟩
  else if ctx.pingOk then
    match replayBuffer now sendOk fuel st with
    | none => none
    | some r =>
      some ⟨true, { ctx with reconnectAttempts := 0 }, r.2.disableBuffering, 1⟩
  else
    some ⟨false, { ctx with reconnectAttempts := ctx.reconnectAttempts + 1 }, st, 1⟩

/-- What one call of `RedisClient.publish` produced: the boolean result, the
final states, how many send attempts were made for this very message, and
how many `time.sleep` calls happened inside the call. -/
structure ClientPublishResult where
  ok : Bool
  ctx : ReconnectCtx
  st : PublisherState
  msgSendAttempts : Nat
  sleeps : Nat
deriving DecidableEq, Repr

/-- Model of `RedisClient.publish` (lines 327-347): one attempt through the
publisher; on failure it enables buffering and calls `reconnect`, and when
reconnection succeeds it re-attempts the same message once.  `send1` and
`send2` are the transport outcomes of the two possible attempts for this
message; `sendOk` drives the sends performed by the replay inside
`reconnect`. -/
def clientPublish (ctx : ReconnectCtx) (st : PublisherState)
    (channel payload : String) (send1 : Bool) (sendOk : Nat → Bool)
    (send2 : Bool) (now : ℚ) (fuel : Nat) : Option ClientPublishResult :=
  let r1 := st.publish channel payload send1 now
  if r1.1 then some ⟨true, ctx, r1.2, 1, 0⟩
  else
    let st1 := r1.2.enableBuffering
    match reconnect ctx st1 now sendOk fuel with
    | none => none
    | some rc =>
      if rc.ok then
        let r2 := rc.st.publish channel payload send2 now
        some ⟨r2.1, rc.ctx, r2.2, 2, rc.sleeps⟩
      else
        some ⟨false, rc.ctx, rc.st, 1, rc.sleeps⟩

/-- The fields of `OperationQueue` (`error_handling.py`, lines 387-426). -/
structure OperationQueue (α : Type) where
  maxSize : Nat
  queue : List α
  droppedCount : Nat
deriving DecidableEq, Repr

/-- Model of `OperationQueue.enqueue` (lines 406-426): when the queue already holds
`max_size` items the NEW operation is dropped (the dropped counter grows and
`false` is returned); otherwise the operation is appended at the tail. -/
def OperationQueue.enqueue {α : Type} (q : OperationQueue α) (op : α) :
    Bool × OperationQueue α :=
  if q.queue.length ≥ q.maxSize then
    (false, { q with droppedCount := q.droppedCount + 1 })
  else
    (true, { q with queue := q.queue ++ [op] })

/-! ### Concrete instances used by witnesses and counterexamples -/

/-- Aggregator with the default weights (0.3, 0.5, 0.2) and thresholds
(60, -60) from `config.py`; the weights sum to 1, so the constructor keeps
them unchanged. -/
def scenarioAgg : SignalAggregator := mkSignalAggregator (3/10) (1/2) (1/5) 60 (-60)

/-- Scenario A snapshot: sentiment 0.6, technical (oversold, bullish_cross,
neutral), regime trending_up with confidence 0.8. -/
def scenarioData : AggregatedData :=
  { sentimentScore := 3/5
    technicalSignals := ⟨.oversold, .bullishCross, .neutral⟩
    regime := ⟨.trendingUp, 4/5, 1/10, 1/2, 0⟩
    events := []
    timestamp := 0 }

end EDI

namespace EDI

/-! ### Claims about the signal aggregator -/

/-- C4: for every aggregator configuration and every snapshot whose
sentiment score lies in [-1, 1] and whose regime confidence lies in [0, 1],
the `score` field of the `CompositeMarketScore` returned by `compute_cms`
lies in [-100, 100] (the code clamps the weighted sum). -/
theorem c4_cms_score_bounded (agg : SignalAggregator) (data : AggregatedData)
    (now : ℚ)
    (_hs1 : -1 ≤ data.sentimentScore) (_hs2 : data.sentimentScore ≤ 1)
    (_hc1 : 0 ≤ data.regime.confidence) (_hc2 : data.regime.confidence ≤ 1) :
    -100 ≤ (computeCms agg data now).score ∧ (computeCms agg data now).score ≤ 100 := by
  refine ⟨le_max_left _ _, max_le (by norm_num) (min_le_left _ _)⟩

/-- Witness for C4 at the Scenario A snapshot. -/
theorem c4_cms_score_bounded_witness :
    (-1 ≤ scenarioData.sentimentScore ∧ scenarioData.sentimentScore ≤ 1 ∧
     0 ≤ scenarioData.regime.confidence ∧ scenarioData.regime.confidence ≤ 1) ∧
    (-100 ≤ (computeCms scenarioAgg scenarioData 0).score ∧
     (computeCms scenarioAgg scenarioData 0).score ≤ 100) :=
  ⟨by norm_num [scenarioData],
   c4_cms_score_bounded scenarioAgg scenarioData 0
     (by norm_num [scenarioData]) (by norm_num [scenarioData])
     (by norm_num [scenarioData]) (by norm_num [scenarioData])⟩

/-- C9 counterexample: two invocations of `generate_signal` on the very same
snapshot at different wall-clock instants do NOT yield bit-identical
`CompositeMarketScore` records, because `compute_cms` stamps the record with
`datetime.now()`. -/
theorem c9_counterexample :
    (generateSignal scenarioAgg scenarioData 0).cms ≠
      (generateSignal scenarioAgg scenarioData 1).cms := by
  intro h
  have h2 := congrArg CompositeMarketScore.timestamp h
  have e0 : (generateSignal scenarioAgg scenarioData 0).cms.timestamp = 0 := rfl
  have e1 : (generateSignal scenarioAgg scenarioData 1).cms.timestamp = 1 := rfl
  rw [e0, e1] at h2
  exact absurd h2 (by norm_num)

/-- C9 amended: `generate_signal` is deterministic in everything except the
construction timestamps: for one snapshot and any two invocation times, the
signal type, the CMS score, all three components, all three weights and the
confidence coincide. -/
theorem c9_deterministic_up_to_timestamp (agg : SignalAggregator)
    (data : AggregatedData) (t1 t2 : ℚ) :
    (generateSignal agg data t1).signalType = (generateSignal agg data t2).signalType ∧
    (generateSignal agg data t1).cms.score = (generateSignal agg data t2).cms.score ∧
    (generateSignal agg data t1).cms.sentimentComponent =
      (generateSignal agg data t2).cms.sentimentComponent ∧
    (generateSignal agg data t1).cms.technicalComponent =
      (generateSignal agg data t2).cms.technicalComponent ∧
    (generateSignal agg data t1).cms.regimeComponent =
      (generateSignal agg data t2).cms.regimeComponent ∧
    (generateSignal agg data t1).cms.weightSentiment =
      (generateSignal agg data t2).cms.weightSentiment ∧
    (generateSignal agg data t1).cms.weightTechnical =
      (generateSignal agg data t2).cms.weightTechnical ∧
    (generateSignal agg data t1).cms.weightRegime =
      (generateSignal agg data t2).cms.weightRegime ∧
    (generateSignal agg data t1).confidence = (generateSignal agg data t2).confidence :=
  ⟨rfl, rfl, rfl, rfl, rfl, rfl, rfl, rfl, rfl⟩

/-- The constructor keeps the Scenario A weights: they sum to exactly 1. -/
lemma scenarioAgg_eq : scenarioAgg = ⟨3/10, 1/2, 1/5, 60, -60⟩ := by
  unfold scenarioAgg mkSignalAggregator
  norm_num

/-- The exact CMS score on the Scenario A snapshot. -/
lemma scenario_score : (computeCms scenarioAgg scenarioData 0).score = 202/3 := by
  rw [scenarioAgg_eq]
  unfold computeCms normalizeTechnicalSignals normalizeRegime scenarioData
  norm_num

/-- C10 counterexample: on the Scenario A input the computed CMS score is
not 67.35 (= 1347/20); the exact weighted sum is 202/3 = 67.333...
(the spec's 67.35 comes from rounding the technical average 2/3 to 0.667
before multiplying). -/
theorem c10_counterexample :
    (generateSignal scenarioAgg scenarioData 0).cms.score ≠ 1347/20 := by
  have h : (computeCms scenarioAgg scenarioData 0).score = 202/3 := scenario_score
  intro hc
  rw [show (generateSignal scenarioAgg scenarioData 0).cms =
        computeCms scenarioAgg scenarioData 0 from rfl, h] at hc
  exact absurd hc (by norm_num)

/-- C10 amended: on the Scenario A input the CMS score is exactly 202/3
(about 67.33) and, since 202/3 > 60, the resulting signal type is BUY. -/
theorem c10_scenario_a :
    (generateSignal scenarioAgg scenarioData 0).cms.score = 202/3 ∧
    (generateSignal scenarioAgg scenarioData 0).signalType = .buy := by
  have h : (computeCms scenarioAgg scenarioData 0).score = 202/3 := scenario_score
  constructor
  · exact h
  · show (if (computeCms scenarioAgg scenarioData 0).score > scenarioAgg.buyThreshold
        then TradingSignalType.buy
        else if (computeCms scenarioAgg scenarioData 0).score < scenarioAgg.sellThreshold
          then TradingSignalType.sell else TradingSignalType.hold) = .buy
    rw [h, scenarioAgg_eq]
    norm_num

/-! ### Claims about the circuit breaker -/

/-- C2: an OPEN breaker whose last failure is less than `recoveryTimeout`
seconds old rejects every `call()` with `CircuitBreakerOpenError`, leaves
its state untouched, and never invokes the wrapped operation. -/
theorem c2_open_rejects_before_timeout (cb : CircuitBreaker) (now t : ℚ)
    (opOk : Bool)
    (hstate : cb.state = .opened) (hlast : cb.lastFailureTime = some t)
    (helapsed : now - t < cb.recoveryTimeout) :
    (cb.call now opOk).outcome = .rejected ∧
    (cb.call now opOk).invoked = false ∧
    (cb.call now opOk).breaker = cb := by
  have hreset : cb.shouldAttemptReset now = false := by
    simp [CircuitBreaker.shouldAttemptReset, hlast, not_le.mpr helapsed]
  simp [CircuitBreaker.call, hstate, hreset]

/-- Witness for C2: a breaker with recovery timeout 30 that failed at time 0,
called at time 10. -/
theorem c2_open_rejects_before_timeout_witness :
    ((⟨5, 30, 3, .opened, 5, some 0, 0⟩ : CircuitBreaker).state = .opened ∧
     (⟨5, 30, 3, .opened, 5, some 0, 0⟩ : CircuitBreaker).lastFailureTime = some 0 ∧
     (10 : ℚ) - 0 < (⟨5, 30, 3, .opened, 5, some 0, 0⟩ : CircuitBreaker).recoveryTimeout) ∧
    (((⟨5, 30, 3, .opened, 5, some 0, 0⟩ : CircuitBreaker).call 10 true).outcome = .rejected ∧
     ((⟨5, 30, 3, .opened, 5, some 0, 0⟩ : CircuitBreaker).call 10 true).invoked = false ∧
     ((⟨5, 30, 3, .opened, 5, some 0, 0⟩ : CircuitBreaker).call 10 true).breaker =
       ⟨5, 30, 3, .opened, 5, some 0, 0⟩) :=
  ⟨⟨rfl, rfl, by norm_num⟩,
   c2_open_rejects_before_timeout ⟨5, 30, 3, .opened, 5, some 0, 0⟩ 10 0 true
     rfl rfl (by norm_num)⟩

/-- After `k < N` consecutive failing calls from a fresh breaker with
threshold `N`, the breaker is still CLOSED with failure count `k` (and a
last-failure stamp from the first failure on). -/
lemma afterFails_lt (N : Nat) (tau : ℚ) (hm : Nat) :
    ∀ k, k < N →
      (CircuitBreaker.init N tau hm).afterFails k =
        { failureThreshold := N
          recoveryTimeout := tau
          halfOpenMaxCalls := hm
          state := .closed
          failureCount := k
          lastFailureTime := if k = 0 then none else some 0
          halfOpenCalls := 0 } := by
  intro k
  induction k with
  | zero =>
    intro _
    simp [CircuitBreaker.afterFails, CircuitBreaker.init]
  | succ k ih =>
    intro hk
    have hklt : k < N := Nat.lt_of_succ_lt hk
    rw [CircuitBreaker.afterFails, ih hklt]
    have hopen : ¬ (k + 1 ≥ N) := by omega
    simp [CircuitBreaker.call, CircuitBreaker.callFrom, CircuitBreaker.onFailure, hopen]

/-- C3: from a fresh breaker with `failure_threshold = N ≥ 1`, each of the
first `N - 1` consecutive failures leaves the breaker CLOSED with the
failure count equal to the number of failures so far, the Nth consecutive
failure moves it to OPEN, and a successful call on any CLOSED breaker
resets the failure count to 0 while staying CLOSED. -/
theorem c3_opens_on_nth_failure (N k : Nat) (tau : ℚ) (hm : Nat)
    (other : CircuitBreaker) (now : ℚ)
    (hN : 1 ≤ N) (hk : k < N) (hother : other.state = .closed) :
    ((CircuitBreaker.init N tau hm).afterFails k).state = .closed ∧
    ((CircuitBreaker.init N tau hm).afterFails k).failureCount = k ∧
    ((CircuitBreaker.init N tau hm).afterFails N).state = .opened ∧
    (other.call now true).breaker.failureCount = 0 ∧
    (other.call now true).breaker.state = .closed := by
  refine ⟨?_, ?_, ?_, ?_, ?_⟩
  · rw [afterFails_lt N tau hm k hk]
  · rw [afterFails_lt N tau hm k hk]
  · obtain ⟨m, rfl⟩ : ∃ m, N = m + 1 := ⟨N - 1, by omega⟩
    rw [CircuitBreaker.afterFails, afterFails_lt (m + 1) tau hm m (by omega)]
    simp [CircuitBreaker.call, CircuitBreaker.callFrom, CircuitBreaker.onFailure]
  · simp [CircuitBreaker.call, CircuitBreaker.callFrom, CircuitBreaker.onSuccess, hother]
  · simp [CircuitBreaker.call, CircuitBreaker.callFrom, CircuitBreaker.onSuccess, hother]

/-- Witness for C3: threshold 5, three failures so far, plus a closed
breaker with a pending failure streak that a success resets. -/
theorem c3_opens_on_nth_failure_witness :
    (1 ≤ 5 ∧ 3 < 5 ∧
     (⟨5, 30, 3, .closed, 4, some 0, 0⟩ : CircuitBreaker).state = .closed) ∧
    (((CircuitBreaker.init 5 30 3).afterFails 3).state = .closed ∧
     ((CircuitBreaker.init 5 30 3).afterFails 3).failureCount = 3 ∧
     ((CircuitBreaker.init 5 30 3).afterFails 5).state = .opened ∧
     ((⟨5, 30, 3, .closed, 4, some 0, 0⟩ : CircuitBreaker).call 7 true).breaker.failureCount = 0 ∧
     ((⟨5, 30, 3, .closed, 4, some 0, 0⟩ : CircuitBreaker).call 7 true).breaker.state = .closed) :=
  ⟨⟨by norm_num, by norm_num, rfl⟩,
   c3_opens_on_nth_failure 5 3 30 3 ⟨5, 30, 3, .closed, 4, some 0, 0⟩ 7
     (by norm_num) (by norm_num) rfl⟩

/-! ### Claims about the publisher and the client -/

/-- A failing send always makes `RedisPublisher.publish` return false. -/
lemma publish_false_of_send_fails (st : PublisherState) (ch d : String) (now : ℚ) :
    (st.publish ch d false now).1 = false := by
  cases hbe : st.bufferEnabled <;> simp [PublisherState.publish, hbe]

/-- C1 counterexample: with a fresh publisher (buffering disabled, empty
buffer) a failing send returns false but leaves the buffer EMPTY and
buffering disabled — the message that triggered the very first failure is
not buffered, contradicting the claim that it is appended. -/
theorem c1_counterexample :
    (PublisherState.init.publish "signals" "m" false 5).1 = false ∧
    (PublisherState.init.publish "signals" "m" false 5).2.bufferEnabled = false ∧
    (PublisherState.init.publish "signals" "m" false 5).2.buffer = [] ∧
    (PublisherState.init.publish "signals" "m" false 5).2.buffer ≠
      [⟨"signals", "m", 5⟩] := by
  refine ⟨rfl, rfl, rfl, by simp [PublisherState.publish, PublisherState.init]⟩

/-- C1 amended: on a transport failure `RedisPublisher.publish` returns
false and appends `(channel, message, now)` only when buffering mode is
already enabled (it never enables it itself); `RedisClient.publish` enables
buffering only after the first failed attempt, so when the first failure
triggers an unsuccessful reconnection the client ends up with buffering
enabled and an empty buffer: the triggering message is lost. -/
theorem c1_first_failure_not_buffered (st : PublisherState) (ch d : String)
    (now : ℚ) (ctx : ReconnectCtx) (sendOk : Nat → Bool) (send2 : Bool)
    (fuel : Nat)
    (hping : ctx.pingOk = false)
    (hcap : ctx.reconnectAttempts < ctx.maxReconnectAttempts) :
    ((st.publish ch d false now).1 = false ∧
     (st.publish ch d false now).2.bufferEnabled = st.bufferEnabled ∧
     (st.publish ch d false now).2.buffer =
       (if st.bufferEnabled then dequeAppend st.buffer ⟨ch, d, now⟩ st.maxlen
        else st.buffer)) ∧
    clientPublish ctx PublisherState.init ch d false sendOk send2 now fuel =
      some ⟨false, ⟨ctx.reconnectAttempts + 1, ctx.maxReconnectAttempts, false⟩,
        ⟨[], true, 1000⟩, 1, 1⟩ := by
  obtain ⟨a, mx, p⟩ := ctx
  simp only [ReconnectCtx.pingOk] at hping
  subst hping
  simp only [ReconnectCtx.reconnectAttempts, ReconnectCtx.maxReconnectAttempts] at hcap ⊢
  constructor
  · refine ⟨publish_false_of_send_fails st ch d now, ?_, ?_⟩ <;>
      cases hbe : st.bufferEnabled <;> simp [PublisherState.publish, hbe]
  · simp [clientPublish, PublisherState.publish, PublisherState.init,
      PublisherState.enableBuffering, reconnect, Nat.not_le.mpr hcap]

/-- Witness for C1 at a concrete first failure: attempt counter 0 (cap 5),
ping failing, send failing. -/
theorem c1_first_failure_not_buffered_witness :
    ((⟨0, 5, false⟩ : ReconnectCtx).pingOk = false ∧
     (⟨0, 5, false⟩ : ReconnectCtx).reconnectAttempts <
       (⟨0, 5, false⟩ : ReconnectCtx).maxReconnectAttempts) ∧
    (((⟨[], true, 1000⟩ : PublisherState).publish "signals" "m" false 3).1 = false ∧
     ((⟨[], true, 1000⟩ : PublisherState).publish "signals" "m" false 3).2.bufferEnabled =
       (⟨[], true, 1000⟩ : PublisherState).bufferEnabled ∧
     ((⟨[], true, 1000⟩ : PublisherState).publish "signals" "m" false 3).2.buffer =
       (if (⟨[], true, 1000⟩ : PublisherState).bufferEnabled then
          dequeAppend (⟨[], true, 1000⟩ : PublisherState).buffer ⟨"signals", "m", 3⟩
            (⟨[], true, 1000⟩ : PublisherState).maxlen
        else (⟨[], true, 1000⟩ : PublisherState).buffer)) ∧
    clientPublish ⟨0, 5, false⟩ PublisherState.init "signals" "m" false
        (fun _ => true) true 3 0 =
      some ⟨false, ⟨0 + 1, 5, false⟩, ⟨[], true, 1000⟩, 1, 1⟩ :=
  ⟨⟨rfl, by norm_num⟩,
   c1_first_failure_not_buffered ⟨[], true, 1000⟩ "signals" "m" 3 ⟨0, 5, false⟩
     (fun _ => true) true 0 rfl (by norm_num)⟩

/-- One `reconnect` run performs at most one `time.sleep`. -/
lemma reconnect_sleeps_le_one (ctx : ReconnectCtx) (st : PublisherState)
    (now : ℚ) (sendOk : Nat → Bool) (fuel : Nat) (rc : ReconnectResult)
    (h : reconnect ctx st now sendOk fuel = some rc) : rc.sleeps ≤ 1 := by
  unfold reconnect at h
  split at h
  · cases h
    exact Nat.zero_le 1
  · split at h
    · split at h
      · cases h
      · cases h
        exact Nat.le_refl 1
    · cases h
      exact Nat.le_refl 1

/-- C5 counterexample: a client publish whose first send fails but whose
reconnection succeeds performs TWO send attempts for the same message and
one backoff sleep within the single `publish` call. -/
theorem c5_counterexample :
    (clientPublish ⟨0, 5, true⟩ PublisherState.init "signals" "m" false
        (fun _ => true) true 0 0).map (fun r => (r.msgSendAttempts, r.sleeps)) =
      some (2, 1) := rfl

/-- C5 amended: `RedisClient.publish` never sleeps and makes exactly one
send attempt when the first send succeeds; on a first-send failure it may
sleep once (reconnect backoff) and re-attempt the same message once more
after a successful reconnection — at most two send attempts and one sleep
per call, never an unbounded synchronous retry loop. -/
theorem c5_at_most_two_attempts (ctx : ReconnectCtx) (st : PublisherState)
    (ch d : String) (send1 : Bool) (sendOk : Nat → Bool) (send2 : Bool)
    (now : ℚ) (fuel : Nat) (r : ClientPublishResult)
    (hrun : clientPublish ctx st ch d send1 sendOk send2 now fuel = some r) :
    r.msgSendAttempts ≤ 2 ∧ r.sleeps ≤ 1 ∧
    (send1 = true → r.msgSendAttempts = 1 ∧ r.sleeps = 0) := by
  cases send1 with
  | true =>
    simp [clientPublish, PublisherState.publish] at hrun
    subst hrun
    exact ⟨by norm_num, by norm_num, fun _ => ⟨rfl, rfl⟩⟩
  | false =>
    simp only [clientPublish, publish_false_of_send_fails, Bool.false_eq_true,
      if_false] at hrun
    cases hrc : reconnect ctx (st.publish ch d false now).2.enableBuffering now
        sendOk fuel with
    | none => rw [hrc] at hrun; cases hrun
    | some rc =>
      rw [hrc] at hrun
      have hs := reconnect_sleeps_le_one _ _ _ _ _ _ hrc
      cases hok : rc.ok with
      | true =>
        simp [hok] at hrun
        subst hrun
        exact ⟨Nat.le_refl 2, hs, fun h => by cases h⟩
      | false =>
        simp [hok] at hrun
        subst hrun
        exact ⟨by norm_num, hs, fun h => by cases h⟩

/-- Witness for C5 with a succeeding first send: one attempt, no sleep. -/
theorem c5_at_most_two_attempts_witness :
    clientPublish ⟨0, 5, true⟩ PublisherState.init "signals" "m" true
        (fun _ => true) true 0 0 =
      some ⟨true, ⟨0, 5, true⟩, PublisherState.init, 1, 0⟩ ∧
    ((1 : Nat) ≤ 2 ∧ (0 : Nat) ≤ 1 ∧
     (true = true →
       (⟨true, ⟨0, 5, true⟩, PublisherState.init, 1, 0⟩ :
           ClientPublishResult).msgSendAttempts = 1 ∧
       (⟨true, ⟨0, 5, true⟩, PublisherState.init, 1, 0⟩ :
           ClientPublishResult).sleeps = 0)) :=
  ⟨rfl,
   c5_at_most_two_attempts ⟨0, 5, true⟩ PublisherState.init "signals" "m" true
     (fun _ => true) true 0 0 ⟨true, ⟨0, 5, true⟩, PublisherState.init, 1, 0⟩ rfl⟩

/-! ### Claims about the buffers -/

/-- The deque with `maxlen` never exceeds its capacity. -/
lemma dequeAppend_length_le (buf : List BufferedMessage) (m : BufferedMessage)
    (cap : Nat) : (dequeAppend buf m cap).length ≤ cap ∨
      ((buf ++ [m]).length ≤ cap ∧ dequeAppend buf m cap = buf ++ [m]) := by
  simp only [dequeAppend]
  split
  · left
    rw [List.length_drop]
    omega
  · right
    refine ⟨by omega, rfl⟩

/-- C6 counterexample: a full `OperationQueue` (capacity 1, holding one
operation) rejects the NEXT enqueue — the new operation is dropped and the
old entry is retained, not the other way around. -/
theorem c6_counterexample :
    ((⟨1, [0], 0⟩ : OperationQueue Nat).enqueue 1).1 = false ∧
    ((⟨1, [0], 0⟩ : OperationQueue Nat).enqueue 1).2.queue = [0] ∧
    ((⟨1, [0], 0⟩ : OperationQueue Nat).enqueue 1).2.queue ≠ [1] := by
  refine ⟨rfl, rfl, by decide⟩

/-- C6 amended: the publisher's deque buffer never exceeds its capacity and,
when full, evicts the oldest entry while retaining the new one; the
`OperationQueue` also never exceeds `max_size`, but when full it REJECTS the
new operation (returns false and counts it as dropped) and keeps the
existing entries unchanged. -/
theorem c6_capacity_and_full_behavior {α : Type} (buf1 buf2 : List BufferedMessage)
    (m : BufferedMessage) (cap : Nat) (q : OperationQueue α) (op : α)
    (hfull : buf2.length = cap) (hpos : 0 < cap)
    (hq : q.queue.length ≤ q.maxSize) :
    (dequeAppend buf1 m cap).length ≤ cap ∧
    dequeAppend buf2 m cap = buf2.drop 1 ++ [m] ∧
    (q.enqueue op).2.queue.length ≤ q.maxSize ∧
    (q.queue.length = q.maxSize →
      (q.enqueue op).1 = false ∧ (q.enqueue op).2.queue = q.queue ∧
      (q.enqueue op).2.droppedCount = q.droppedCount + 1) := by
  refine ⟨?_, ?_, ?_, ?_⟩
  · rcases dequeAppend_length_le buf1 m cap with h | ⟨h1, h2⟩
    · exact h
    · rw [h2]; exact h1
  · cases buf2 with
    | nil => simp at hfull; omega
    | cons a t =>
      simp only [dequeAppend]
      rw [if_pos (by simp; simp at hfull; omega)]
      have hd : (a :: t ++ [m]).length - cap = 1 := by
        simp at hfull ⊢
        omega
      rw [hd]
      simp
  · by_cases hge : q.queue.length ≥ q.maxSize
    · unfold OperationQueue.enqueue
      rw [if_pos hge]
      exact hq
    · unfold OperationQueue.enqueue
      rw [if_neg hge]
      simp only [List.length_append, List.length_cons, List.length_nil]
      omega
  · intro hfq
    unfold OperationQueue.enqueue
    rw [if_pos (by omega)]
    exact ⟨rfl, rfl, rfl⟩

/-- Witness for C6: deque of capacity 1 holding one entry, queue of
capacity 2 holding one operation. -/
theorem c6_capacity_and_full_behavior_witness :
    (([(⟨"a", "x", 0⟩ : BufferedMessage)].length = 1 ∧ 0 < 1 ∧
      ((⟨2, [5], 0⟩ : OperationQueue Nat).queue.length ≤
        (⟨2, [5], 0⟩ : OperationQueue Nat).maxSize)) ∧
     ((dequeAppend [] ⟨"b", "y", 1⟩ 1).length ≤ 1 ∧
      dequeAppend [⟨"a", "x", 0⟩] ⟨"b", "y", 1⟩ 1 =
        [(⟨"a", "x", 0⟩ : BufferedMessage)].drop 1 ++ [⟨"b", "y", 1⟩] ∧
      ((⟨2, [5], 0⟩ : OperationQueue Nat).enqueue 7).2.queue.length ≤
        (⟨2, [5], 0⟩ : OperationQueue Nat).maxSize ∧
      ((⟨2, [5], 0⟩ : OperationQueue Nat).queue.length =
          (⟨2, [5], 0⟩ : OperationQueue Nat).maxSize →
        ((⟨2, [5], 0⟩ : OperationQueue Nat).enqueue 7).1 = false ∧
        ((⟨2, [5], 0⟩ : OperationQueue Nat).enqueue 7).2.queue =
          (⟨2, [5], 0⟩ : OperationQueue Nat).queue ∧
        ((⟨2, [5], 0⟩ : OperationQueue Nat).enqueue 7).2.droppedCount =
          (⟨2, [5], 0⟩ : OperationQueue Nat).droppedCount + 1))) :=
  ⟨⟨rfl, by norm_num, by norm_num⟩,
   c6_capacity_and_full_behavior [] [⟨"a", "x", 0⟩] ⟨"b", "y", 1⟩ 1
     ⟨2, [5], 0⟩ 7 rfl (by norm_num) (by norm_num)⟩

/-! ### Claims about buffer replay -/

/-- With buffering enabled, a single fresh buffered message whose every
re-publish fails keeps the drain loop running forever: popping it and
failing re-appends a fresh-timestamped copy, so the buffer never empties
and no amount of fuel completes the loop. -/
lemma replayLoop_allfail_none (ch d : String) :
    ∀ (fuel : Nat) (s : ReplayState),
      s.pub.buffer = [⟨ch, d, 0⟩] → s.pub.bufferEnabled = true →
      s.pub.maxlen = 1000 →
      replayLoop 0 (fun _ => false) fuel s = none := by
  intro fuel
  induction fuel with
  | zero =>
    intro s h1 _ _
    simp [replayLoop, h1]
  | succ f ih =>
    intro s h1 h2 h3
    obtain ⟨⟨pbuf, pen, pmax⟩, fl, rp, a, att⟩ := s
    simp only at h1 h2 h3
    subst h1
    subst h2
    subst h3
    rw [replayLoop, if_neg (by simp)]
    refine ih _ ?_ ?_ ?_ <;>
      norm_num [replayStep, PublisherState.publish, dequeAppend]

/-- C8: `replay_buffer` does NOT terminate on a buffer holding one fresh
entry when buffering mode is enabled and every re-publish attempt fails —
the code diverges where the claim asserts termination. -/
theorem c8_replay_buffer_diverges :
    ¬ ReplayTerminates 0 (fun _ => false)
      (⟨[⟨"signals", "sig", 0⟩], true, 1000⟩ : PublisherState) := by
  rintro ⟨fuel, r, h⟩
  unfold replayBuffer at h
  rw [if_neg (by simp)] at h
  rw [replayLoop_allfail_none "signals" "sig" fuel _ rfl rfl rfl] at h
  cases h

/-- C7 counterexample: with buffering mode enabled (as it always is at the
only call site, inside `reconnect`) and a fresh entry that keeps failing,
`replay_buffer` never returns at all — so the claimed final state in which
the failing entry has been re-enqueued at the tail is never reached. -/
theorem c7_counterexample :
    ¬ ∃ fuel r, replayBuffer 0 (fun _ => false) fuel
        (⟨[⟨"prices", "px", 0⟩], true, 1000⟩ : PublisherState) = some r := by
  rintro ⟨fuel, r, h⟩
  unfold replayBuffer at h
  rw [if_neg (by simp)] at h
  rw [replayLoop_allfail_none "prices" "px" fuel _ rfl rfl rfl] at h
  cases h

/-- The replay attempts are exactly the non-stale buffer entries, in their
original order. -/
lemma replaySpec_attempted_filter (now : ℚ) (sendOk : Nat → Bool) :
    ∀ (buf : List BufferedMessage) (i : Nat),
      (replaySpec now sendOk buf i).attempted =
        buf.filter (fun b => decide (now - b.enqueuedAt ≤ 300)) := by
  intro buf
  induction buf with
  | nil => intro i; simp [replaySpec]
  | cons m rest ih =>
    intro i
    by_cases hstale : now - m.enqueuedAt > 300
    · have hfresh : ¬ (now ≤ 300 + m.enqueuedAt) := by
        rw [← sub_le_iff_le_add]
        exact not_le.mpr hstale
      simp [replaySpec, hstale, List.filter_cons, ih, hfresh]
    · have hfresh : now ≤ 300 + m.enqueuedAt := by
        rw [← sub_le_iff_le_add]
        exact not_lt.mp hstale
      by_cases hsend : sendOk i <;>
        simp [replaySpec, hstale, List.filter_cons, hsend, ih, hfresh]

/-- The failing entries form a sublist of the attempted entries. -/
lemma replaySpec_failed_sublist (now : ℚ) (sendOk : Nat → Bool) :
    ∀ (buf : List BufferedMessage) (i : Nat),
      List.Sublist (replaySpec now sendOk buf i).failed
        (replaySpec now sendOk buf i).attempted := by
  intro buf
  induction buf with
  | nil => intro i; simp [replaySpec]
  | cons m rest ih =>
    intro i
    by_cases hstale : now - m.enqueuedAt > 300
    · simpa [replaySpec, hstale] using ih i
    · by_cases hsend : sendOk i
      · simpa [replaySpec, hstale, hsend] using (ih (i + 1)).cons m
      · simpa [replaySpec, hstale, hsend] using (ih (i + 1)).cons₂ m

/-- Every attempted entry is either replayed or failed. -/
lemma replaySpec_count (now : ℚ) (sendOk : Nat → Bool) :
    ∀ (buf : List BufferedMessage) (i : Nat),
      (replaySpec now sendOk buf i).replayed +
        (replaySpec now sendOk buf i).failed.length =
        (replaySpec now sendOk buf i).attempted.length := by
  intro buf
  induction buf with
  | nil => intro i; simp [replaySpec]
  | cons m rest ih =>
    intro i
    by_cases hstale : now - m.enqueuedAt > 300
    · simpa [replaySpec, hstale] using ih i
    · by_cases hsend : sendOk i <;>
        · simp [replaySpec, hstale, hsend]
          have := ih (i + 1)
          omega

/-- With buffering disabled, the drain loop consumes exactly the initial
buffer and agrees with the spec-level recursion `replaySpec`. -/
lemma replayLoop_disabled (now : ℚ) (sendOk : Nat → Bool) :
    ∀ (buf : List BufferedMessage) (fuel : Nat) (s : ReplayState),
      s.pub.buffer = buf → s.pub.bufferEnabled = false → buf.length ≤ fuel →
      ∃ sFin, replayLoop now sendOk fuel s = some sFin ∧
        sFin.pub = { s.pub with buffer := [] } ∧
        sFin.attempted = s.attempted ++ (replaySpec now sendOk buf s.attempts).attempted ∧
        sFin.failed = s.failed ++ (replaySpec now sendOk buf s.attempts).failed ∧
        sFin.replayed = s.replayed + (replaySpec now sendOk buf s.attempts).replayed := by
  intro buf
  induction buf with
  | nil =>
    intro fuel s h1 h2 _
    obtain ⟨⟨pbuf, pen, pmax⟩, fl, rp, a, att⟩ := s
    simp only at h1 h2
    subst h1
    subst h2
    refine ⟨⟨⟨[], false, pmax⟩, fl, rp, a, att⟩, ?_, rfl, ?_, ?_, ?_⟩
    · cases fuel <;> simp [replayLoop]
    · simp [replaySpec]
    · simp [replaySpec]
    · simp [replaySpec]
  | cons m rest ih =>
    intro fuel s h1 h2 hlen
    obtain ⟨⟨pbuf, pen, pmax⟩, fl, rp, a, att⟩ := s
    simp only at h1 h2
    subst h1
    subst h2
    cases fuel with
    | zero => simp at hlen
    | succ f =>
      rw [replayLoop, if_neg (by simp)]
      by_cases hstale : now - m.enqueuedAt > 300
      · have hstep : replayStep now sendOk ⟨⟨m :: rest, false, pmax⟩, fl, rp, a, att⟩ =
            ⟨⟨rest, false, pmax⟩, fl, rp, a, att⟩ := by
          simp [replayStep, hstale]
        rw [hstep]
        obtain ⟨sFin, hloop, hpub, hatt, hfail, hrep⟩ :=
          ih f ⟨⟨rest, false, pmax⟩, fl, rp, a, att⟩ rfl rfl (by simp at hlen; omega)
        exact ⟨sFin, hloop, hpub, by simpa [replaySpec, hstale] using hatt,
          by simpa [replaySpec, hstale] using hfail,
          by simpa [replaySpec, hstale] using hrep⟩
      · by_cases hsend : sendOk a
        · have hstep : replayStep now sendOk ⟨⟨m :: rest, false, pmax⟩, fl, rp, a, att⟩ =
              ⟨⟨rest, false, pmax⟩, fl, rp + 1, a + 1, att ++ [m]⟩ := by
            simp [replayStep, hstale, PublisherState.publish, hsend]
          rw [hstep]
          obtain ⟨sFin, hloop, hpub, hatt, hfail, hrep⟩ :=
            ih f ⟨⟨rest, false, pmax⟩, fl, rp + 1, a + 1, att ++ [m]⟩ rfl rfl
              (by simp at hlen; omega)
          refine ⟨sFin, hloop, hpub, ?_, ?_, ?_⟩
          · rw [hatt]
            simp [replaySpec, hstale, hsend]
          · rw [hfail]
            simp [replaySpec, hstale, hsend]
          · rw [hrep]
            simp [replaySpec, hstale, hsend]
            omega
        · have hstep : replayStep now sendOk ⟨⟨m :: rest, false, pmax⟩, fl, rp, a, att⟩ =
              ⟨⟨rest, false, pmax⟩, fl ++ [m], rp, a + 1, att ++ [m]⟩ := by
            simp [replayStep, hstale, PublisherState.publish, hsend]
          rw [hstep]
          obtain ⟨sFin, hloop, hpub, hatt, hfail, hrep⟩ :=
            ih f ⟨⟨rest, false, pmax⟩, fl ++ [m], rp, a + 1, att ++ [m]⟩ rfl rfl
              (by simp at hlen; omega)
          refine ⟨sFin, hloop, hpub, ?_, ?_, ?_⟩
          · rw [hatt]
            simp [replaySpec, hstale, hsend]
          · rw [hfail]
            simp [replaySpec, hstale, hsend]
          · rw [hrep]
            simp [replaySpec, hstale, hsend]

/-- Re-appending a list of messages that fits under the capacity is a plain
append. -/
lemma foldl_dequeAppend_eq_append (cap : Nat) :
    ∀ (l acc : List BufferedMessage), acc.length + l.length ≤ cap →
      l.foldl (fun b m => dequeAppend b m cap) acc = acc ++ l := by
  intro l
  induction l with
  | nil => intro acc _; simp
  | cons m t ih =>
    intro acc h
    have hstep : dequeAppend acc m cap = acc ++ [m] := by
      simp only [dequeAppend]
      rw [if_neg (by simp at h ⊢; omega)]
    rw [List.foldl_cons, hstep, ih (acc ++ [m]) (by simp at h ⊢; omega)]
    simp

/-- C7 amended: when buffering mode is disabled during replay (so a failing
re-publish does not mutate the live buffer), the drain loop terminates with
fuel equal to the buffer length, attempts exactly the entries at most 300
seconds old in their original enqueue order, and `replay_buffer` returns
the number of successes with the failed entries re-enqueued as the new
buffer in order; with buffering enabled a failing entry is instead
re-inserted immediately with a fresh timestamp and the loop need not
terminate. -/
theorem c7_replay_order_staleness_requeue (st : PublisherState) (now : ℚ)
    (sendOk : Nat → Bool)
    (hdis : st.bufferEnabled = false) (hcap : st.buffer.length ≤ st.maxlen) :
    ∃ sFin, replayLoop now sendOk st.buffer.length ⟨st, [], 0, 0, []⟩ = some sFin ∧
      sFin.attempted = st.buffer.filter (fun b => decide (now - b.enqueuedAt ≤ 300)) ∧
      List.Sublist sFin.failed sFin.attempted ∧
      sFin.replayed + sFin.failed.length = sFin.attempted.length ∧
      replayBuffer now sendOk st.buffer.length st =
        some (sFin.replayed, { st with buffer := sFin.failed }) := by
  obtain ⟨sbuf, sen, smax⟩ := st
  simp only at hdis hcap
  subst hdis
  obtain ⟨sFin, hloop, hpub, hatt, hfail, hrep⟩ :=
    replayLoop_disabled now sendOk sbuf sbuf.length
      ⟨⟨sbuf, false, smax⟩, [], 0, 0, []⟩ rfl rfl (Nat.le_refl _)
  simp only [List.nil_append, Nat.zero_add] at hatt hfail hrep
  have hattf := replaySpec_attempted_filter now sendOk sbuf 0
  have hsub := replaySpec_failed_sublist now sendOk sbuf 0
  have hcount := replaySpec_count now sendOk sbuf 0
  have hfaillen : sFin.failed.length ≤ smax := by
    rw [hfail]
    calc (replaySpec now sendOk sbuf 0).failed.length
        ≤ (replaySpec now sendOk sbuf 0).attempted.length := hsub.length_le
      _ ≤ sbuf.length := by
          rw [hattf]
          exact List.length_filter_le _ _
      _ ≤ smax := hcap
  refine ⟨sFin, hloop, by rw [hatt, hattf], by rw [hatt, hfail]; exact hsub, ?_, ?_⟩
  · rw [hatt, hfail, hrep]
    exact hcount
  · unfold replayBuffer
    by_cases hb : sbuf = []
    · subst hb
      rw [if_pos rfl]
      have hrep0 : sFin.replayed = 0 := by rw [hrep]; simp [replaySpec]
      have hfail0 : sFin.failed = [] := by rw [hfail]; simp [replaySpec]
      rw [hrep0, hfail0]
    · rw [if_neg hb]
      rw [hloop]
      simp [hpub]
      exact foldl_dequeAppend_eq_append smax sFin.failed [] (by simpa using hfaillen)

/-- Witness for C7: three buffered entries at time 310 — the middle one
(enqueued at 0) is stale and skipped; the oracle succeeds on the first
attempt and fails on the second. -/
theorem c7_replay_order_staleness_requeue_witness :
    ((⟨[⟨"a", "x", 40⟩, ⟨"b", "y", 0⟩, ⟨"c", "z", 60⟩], false, 1000⟩ :
        PublisherState).bufferEnabled = false ∧
     (⟨[⟨"a", "x", 40⟩, ⟨"b", "y", 0⟩, ⟨"c", "z", 60⟩], false, 1000⟩ :
        PublisherState).buffer.length ≤
       (⟨[⟨"a", "x", 40⟩, ⟨"b", "y", 0⟩, ⟨"c", "z", 60⟩], false, 1000⟩ :
        PublisherState).maxlen) ∧
    (∃ sFin,
      replayLoop 310 (fun i => i == 0)
          (⟨[⟨"a", "x", 40⟩, ⟨"b", "y", 0⟩, ⟨"c", "z", 60⟩], false, 1000⟩ :
            PublisherState).buffer.length
          ⟨⟨[⟨"a", "x", 40⟩, ⟨"b", "y", 0⟩, ⟨"c", "z", 60⟩], false, 1000⟩, [], 0, 0, []⟩ =
        some sFin ∧
      sFin.attempted =
        (⟨[⟨"a", "x", 40⟩, ⟨"b", "y", 0⟩, ⟨"c", "z", 60⟩], false, 1000⟩ :
          PublisherState).buffer.filter (fun b => decide ((310 : ℚ) - b.enqueuedAt ≤ 300)) ∧
      List.Sublist sFin.failed sFin.attempted ∧
      sFin.replayed + sFin.failed.length = sFin.attempted.length ∧
      replayBuffer 310 (fun i => i == 0)
          (⟨[⟨"a", "x", 40⟩, ⟨"b", "y", 0⟩, ⟨"c", "z", 60⟩], false, 1000⟩ :
            PublisherState).buffer.length
          ⟨[⟨"a", "x", 40⟩, ⟨"b", "y", 0⟩, ⟨"c", "z", 60⟩], false, 1000⟩ =
        some (sFin.replayed,
          { (⟨[⟨"a", "x", 40⟩, ⟨"b", "y", 0⟩, ⟨"c", "z", 60⟩], false, 1000⟩ :
              PublisherState) with buffer := sFin.failed })) :=
  ⟨⟨rfl, by norm_num⟩,
   c7_replay_order_staleness_requeue
     ⟨[⟨"a", "x", 40⟩, ⟨"b", "y", 0⟩, ⟨"c", "z", 60⟩], false, 1000⟩ 310
     (fun i => i == 0) rfl (by norm_num)⟩

end EDI
